import Mathlib

/-!
Shallow embedding of the fleet-supervisor program (`runner.py`) and the
response post-processing of `ai.py`.

`BotMonitor` state is modelled explicitly: `data` is the previously loaded
declared list (`self.data`), the registry `running_bots` is modelled by the
list of its keys (slot indices), and for shutdown by an association list
from slot index to a simulated process.  Spawning a process is external
I/O, so `_start_bot_process` is abstracted by a `spawnOk : Nat → Bool`
oracle saying whether the spawn attempt for a slot yields a live process;
the spawn attempt itself is recorded as a `Start` action either way.
-/

/-- One bot record from `data.json`.  The monitor treats records as opaque
dictionaries compared for (in)equality (`self.data[i] != new_data[i]`);
the fields below are the keys the supervisor itself reads. -/
structure BotConfig where
  bot_token : Option String := none
  model : Option String := none
  personality : Option String := none
  msg_chance : Option Int := none
deriving DecidableEq

/-- Reconciliation actions observable in `_start_new_bots`: a `start i` is a
call to `_start_bot_process(i)`, a `stop i` is a `terminate` on slot `i`'s
process inside the configuration-changed branch. -/
inductive BotAction where
  | start (slot : Nat)
  | stop (slot : Nat)
deriving DecidableEq

/-- Whether an action is a Start. -/
def BotAction.isStart : BotAction → Bool
  | .start _ => true
  | .stop _ => false

/-- The slot an action acts on. -/
def BotAction.slot : BotAction → Nat
  | .start i => i
  | .stop i => i

/-- The `for i in range(len(new_data))` loop body of `_start_new_bots`
(runner.py lines 115-135).  `running` is the evolving key set of
`self.running_bots`.  The middle branch is the configuration-changed
terminate branch of the source; it is nested under `i not in
self.running_bots` yet re-tests `i in self.running_bots`, so it is dead
code, carried here verbatim. -/
def startLoop (prevData newData : List BotConfig) (spawnOk : Nat → Bool) :
    List Nat → List Nat → List BotAction × List Nat
  | [], running => ([], running)
  | i :: rest, running =>
    if i ∈ running then
      startLoop prevData newData spawnOk rest running
    else if i < prevData.length ∧ prevData[i]? ≠ newData[i]? ∧ i ∈ running then
      let r1 := startLoop prevData newData spawnOk rest
        (if spawnOk i then (running.erase i) ++ [i] else running.erase i)
      (BotAction.stop i :: BotAction.start i :: r1.1, r1.2)
    else
      let r1 := startLoop prevData newData spawnOk rest
        (if spawnOk i then running ++ [i] else running)
      (BotAction.start i :: r1.1, r1.2)

/-- `BotMonitor._start_new_bots` (runner.py lines 103-137) as a pure
function from the previously recorded declared list, the freshly loaded
one and the registry key set, to the issued actions, the new key set and
the new recorded declared list.  An empty load returns early before the
lock (line 106-107); the loop only runs when the declared count exceeds
the live count (line 114); `self.data = new_data` (line 137) runs whenever
the load was non-empty. -/
def startNewBots (prevData newData : List BotConfig) (running : List Nat)
    (spawnOk : Nat → Bool) : List BotAction × List Nat × List BotConfig :=
  if newData.isEmpty then ([], running, prevData)
  else
    let r1 :=
      if newData.length > running.length then
        startLoop prevData newData spawnOk (List.range newData.length) running
      else ([], running)
    (r1.1, r1.2, newData)

/-- Simulated worker process for shutdown: whether it exits within the
grace timeout passed to `process.wait`. -/
structure ProcSim where
  exitsInGrace : Bool
deriving DecidableEq

/-- The grace timeout passed to `process.wait` in `_shutdown_all_bots`
(runner.py line 192). -/
def gracePeriod : Nat := 5

/-- Process-control steps issued by `_shutdown_all_bots`. -/
inductive ShutAction where
  | term (slot : Nat)
  | waitGrace (slot : Nat) (timeout : Nat)
  | kill (slot : Nat)
deriving DecidableEq

/-- Steps issued for one registry entry in the shutdown loop (runner.py
lines 186-197): `terminate`, `wait(timeout=5)`, and `kill` exactly when the
wait times out. -/
def shutdownBlock (ip : Nat × ProcSim) : List ShutAction :=
  ShutAction.term ip.1 :: ShutAction.waitGrace ip.1 gracePeriod ::
    (if ip.2.exitsInGrace then [] else [ShutAction.kill ip.1])

/-- The shutdown loop over the registry entries, in iteration order. -/
def shutdownSteps : List (Nat × ProcSim) → List ShutAction
  | [] => []
  | ip :: rest => shutdownBlock ip ++ shutdownSteps rest

/-- `BotMonitor._shutdown_all_bots` (runner.py lines 183-200): the issued
process-control steps and the registry afterwards
(`self.running_bots.clear()`, line 199). -/
def shutdownAllBots (running : List (Nat × ProcSim)) :
    List ShutAction × List (Nat × ProcSim) :=
  (shutdownSteps running, [])

/-- Events for the lock-discipline traces: lock transitions, blocking I/O
(store read, process spawn, wait-for-exit) and non-blocking signals. -/
inductive Ev where
  | lockAcquire
  | lockRelease
  | readStore
  | spawnProc
  | waitExit
  | sendSignal
deriving DecidableEq

/-- Whether an event is blocking I/O. -/
def Ev.isBlocking : Ev → Bool
  | .readStore => true
  | .spawnProc => true
  | .waitExit => true
  | _ => false

/-- Walks a trace tracking whether `self.lock` is held and reports whether
any blocking I/O event occurs while it is held. -/
def blockedWhileLocked : List Ev → Bool → Bool
  | [], _ => false
  | e :: rest, held =>
    if e = Ev.lockAcquire then blockedWhileLocked rest true
    else if e = Ev.lockRelease then blockedWhileLocked rest false
    else (e.isBlocking && held) || blockedWhileLocked rest held

/-- Event trace of the `_start_new_bots` loop: each `_start_bot_process`
call performs a store read (`_load_data`, runner.py line 57) and then a
process spawn (`subprocess.Popen`, line 65); the dead terminate branch
would additionally send a signal. -/
def startTraceLoop (prevData newData : List BotConfig) (spawnOk : Nat → Bool) :
    List Nat → List Nat → List Ev
  | [], _ => []
  | i :: rest, running =>
    if i ∈ running then startTraceLoop prevData newData spawnOk rest running
    else if i < prevData.length ∧ prevData[i]? ≠ newData[i]? ∧ i ∈ running then
      Ev.sendSignal :: Ev.readStore :: Ev.spawnProc ::
        startTraceLoop prevData newData spawnOk rest
          (if spawnOk i then (running.erase i) ++ [i] else running.erase i)
    else
      Ev.readStore :: Ev.spawnProc ::
        startTraceLoop prevData newData spawnOk rest
          (if spawnOk i then running ++ [i] else running)

/-- Event trace of `_start_new_bots`: the initial `_load_data` happens
before the lock (runner.py line 104); everything from line 109 on — the
whole start loop, including its per-bot store reads and spawns — happens
inside `with self.lock`. -/
def startNewBotsTrace (prevData newData : List BotConfig) (running : List Nat)
    (spawnOk : Nat → Bool) : List Ev :=
  Ev.readStore ::
    (if newData.isEmpty then []
     else
       Ev.lockAcquire ::
         ((if newData.length > running.length then
             startTraceLoop prevData newData spawnOk
               (List.range newData.length) running
           else []) ++ [Ev.lockRelease]))

/-- Event trace of the shutdown loop body: terminate signal, blocking
wait, and a kill signal when the wait times out. -/
def shutdownTraceSteps : List (Nat × ProcSim) → List Ev
  | [] => []
  | (_, p) :: rest =>
    Ev.sendSignal :: Ev.waitExit ::
      ((if p.exitsInGrace then [] else [Ev.sendSignal]) ++
        shutdownTraceSteps rest)

/-- Event trace of `_shutdown_all_bots`: the entire loop, including every
blocking `process.wait(timeout=5)`, runs inside `with self.lock`
(runner.py lines 184-199). -/
def shutdownTrace (running : List (Nat × ProcSim)) : List Ev :=
  Ev.lockAcquire :: (shutdownTraceSteps running ++ [Ev.lockRelease])

/-- What `_load_data` finds in the backing store. -/
inductive StoreContent where
  | missing
  | unreadable (msg : String)
  | invalidJson (msg : String)
  | jsonNonList
  | jsonList (items : List BotConfig)
deriving DecidableEq

/-- Whether the store content parsed as the expected list shape. -/
def StoreContent.parsesAsList : StoreContent → Bool
  | .jsonList _ => true
  | _ => false

/-- `BotMonitor._load_data` (runner.py lines 17-37): the returned declared
list together with the error lines printed.  Every failure path returns
the empty list; no path raises. -/
def loadData (dataFile : String) : StoreContent → List BotConfig × List String
  | .missing => ([], ["Error: " ++ dataFile ++ " not found"])
  | .unreadable msg => ([], ["Error loading data: " ++ msg])
  | .invalidJson msg =>
      ([], ["Error: Invalid JSON in " ++ dataFile ++ ": " ++ msg])
  | .jsonNonList =>
      ([], ["Error: " ++ dataFile ++ " should contain a list of bot configurations"])
  | .jsonList items => (items, [])

/-- One line printed by `list_bots` for a slot (runner.py line 215). -/
def botLine (i : Nat) (model : String) (chance : Int) (status : String) :
    String :=
  "  " ++ toString i ++ (": Model=") ++ model ++ (", Response Chance=") ++
    toString chance ++ ("%, Status=") ++ status

/-- `BotMonitor.list_bots` (runner.py lines 205-215): output lines, given
the loaded declared list and the registry key set. -/
def listBots (data : List BotConfig) (running : List Nat) : List String :=
  if data.isEmpty then ["No bot configurations found."]
  else
    ("Found " ++ toString data.length ++ (" bot configurations:")) ::
      data.enum.map (fun ic =>
        botLine ic.1 (ic.2.model.getD ("Unknown")) (ic.2.msg_chance.getD 5)
          (if ic.1 ∈ running then "Running" else "Stopped"))

/-- The pointer to `help` printed after a CLI argument error
(runner.py lines 237 and 240). -/
def usagePointer : String :=
  "Use 'python bot_monitor.py help' for usage information"

/-- The `help` output (runner.py lines 231-234). -/
def helpLines : List String :=
  ["Usage:",
   "  python bot_monitor.py       - Start continuous monitoring",
   "  python bot_monitor.py list  - List all bot configurations with status",
   "  python bot_monitor.py help  - Show this help message"]

/-- Result of a CLI invocation: either the blocking monitoring loop, or
printed lines plus the process exit code. -/
inductive CliEffect where
  | monitorLoop
  | output (lines : List String) (exitCode : Nat)
deriving DecidableEq

/-- Exit code of a CLI invocation, when it returns. -/
def CliEffect.exitCode : CliEffect → Option Nat
  | .monitorLoop => none
  | .output _ c => some c

/-- `main` (runner.py lines 217-240) dispatching on `sys.argv[1:]`.  The
fresh `BotMonitor()` loads `storedData` and has an empty registry, so the
`list` path calls `list_bots` with no running slots.  `main` never calls
`sys.exit`, so every returning path exits with code 0. -/
def mainDispatch (storedData : List BotConfig) (args : List String) :
    CliEffect :=
  match args with
  | [] => CliEffect.monitorLoop
  | [arg] =>
    if arg = "list" then CliEffect.output (listBots storedData []) 0
    else if arg = "help" then CliEffect.output helpLines 0
    else
      CliEffect.output
        ["Error: '" ++ arg ++ ("' is not a valid command"), usagePointer] 0
  | _ :: _ :: _ =>
    CliEffect.output ["Error: Too many arguments", usagePointer] 0

/-- The `list` CLI command (runner.py lines 228-229): `list_bots` on a
fresh monitor, whose `running_bots` is empty. -/
def cliList (storedData : List BotConfig) : List String :=
  listBots storedData []

/-- Whether the second character list is a prefix of the first. -/
def charsStartsWith : List Char → List Char → Bool
  | _, [] => true
  | [], _ :: _ => false
  | c :: cs, p :: ps => c = p && charsStartsWith cs ps

/-- Splitting a character list on a non-empty separator, Python
`str.split` style; `fuel` bounds the number of steps (each consumes at
least one character, so the list's length suffices). -/
def splitOnGo (sep : List Char) : Nat → List Char → List Char →
    List (List Char)
  | _, [], acc => [acc.reverse]
  | 0, l, acc => [acc.reverse ++ l]
  | fuel + 1, c :: rest, acc =>
    if charsStartsWith (c :: rest) sep then
      acc.reverse :: splitOnGo sep fuel (List.drop sep.length (c :: rest)) []
    else
      splitOnGo sep fuel rest (c :: acc)

/-- Python `s.split(sep)` for a non-empty separator. -/
def pySplit (s sep : String) : List String :=
  (splitOnGo sep.data s.data.length s.data []).map String.mk

/-- Python `s.startswith(pat)`. -/
def strStartsWith (s pat : String) : Bool :=
  charsStartsWith s.data pat.data

/-- Python `s.endswith(pat)`. -/
def strEndsWith (s pat : String) : Bool :=
  charsStartsWith s.data.reverse pat.data.reverse

/-- Python `s.strip()`: drop leading and trailing whitespace. -/
def pyStrip (s : String) : String :=
  String.mk
    (((s.data.dropWhile Char.isWhitespace).reverse.dropWhile
        Char.isWhitespace).reverse)

/-- Python `str.splitlines` restricted to `\n` separators: splits on
newlines and yields no trailing empty piece for a trailing newline, and no
piece at all for the empty string. -/
def pySplitlines (s : String) : List String :=
  if s = "" then []
  else if strEndsWith s ("\n") then (pySplit s ("\n")).dropLast
  else pySplit s ("\n")

/-- Python `s.split(pat, 1)[1]`: everything after the first occurrence of
`pat` (empty when `pat` does not occur). -/
def splitRemainder (s pat : String) : String :=
  String.intercalate pat ((pySplit s pat).tail)

/-- The line-filtering loop of `ChatManager.get_ai_response`
(ai.py lines 134-145): returns the kept lines, the image prompt when a
`Gen:` line appears (the loop breaks there, dropping all later lines), and
the accumulated `see_pfp:` usernames. -/
def filterStep : List String → List String × Option String × List String
  | [] => ([], none, [])
  | line :: rest =>
    if strStartsWith (pyStrip line) ("Gen:") then
      ([], some (pyStrip (splitRemainder line ("Gen:"))), [])
    else if strStartsWith (pyStrip line) ("see_pfp:") then
      let r := filterStep rest
      (r.1, r.2.1, (pyStrip (splitRemainder line ("see_pfp:"))) :: r.2.2)
    else
      let r := filterStep rest
      (line :: r.1, r.2.1, r.2.2)

/-- The `---` truncation of ai.py lines 131-132: everything before the
first `---` when one occurs, the whole string otherwise. -/
def dropAfterDashes (s : String) : String :=
  if (pySplit s ("---")).length > 1 then (pySplit s ("---")).headD ""
  else s

/-- Truncation then line filtering, as in ai.py lines 131-145. -/
def postProcessParts (response : String) :
    List String × Option String × List String :=
  filterStep (pySplitlines (dropAfterDashes response))

/-- The dictionary returned by `get_ai_response` (ai.py line 149). -/
structure AiResult where
  content : String
  image : Option String
  pfp_requests : List String
deriving DecidableEq

/-- The response post-processing tail of `ChatManager.get_ai_response`
(ai.py lines 129-149), as a function of the raw model completion text:
truncate at `---`, filter `Gen:` and `see_pfp:` lines, rejoin, and replace
an empty result by `"OK"`. -/
def get_ai_response (modelResponse : String) : AiResult :=
  let r := postProcessParts modelResponse
  let content0 := String.intercalate ("\n") r.1
  { content := if content0 = "" then "OK" else content0
    image := r.2.1
    pfp_requests := r.2.2 }

/-- Concrete config used in witnesses and counterexamples. -/
def cfgA : BotConfig :=
  { bot_token := some "tokA", model := some "openai",
    personality := some "ditzy", msg_chance := some 5 }

/-- `cfgA` with a different response chance: same slot, changed content. -/
def cfgA2 : BotConfig :=
  { cfgA with msg_chance := some 20 }

/-- A second concrete config. -/
def cfgB : BotConfig :=
  { bot_token := some "tokB", model := some "mistral",
    personality := some "grumpy", msg_chance := some 10 }

/-! Helper lemmas about the start loop. -/

/-- Every action emitted by the start loop is a Start: the terminate branch
requires `i ∈ running` under the guard `i ∉ running`, so it never fires. -/
theorem startLoop_all_start (p n : List BotConfig) (f : Nat → Bool)
    (l : List Nat) : ∀ (r : List Nat),
    ((startLoop p n f l r).1).all BotAction.isStart = true := by
  induction l with
  | nil => intro r; rfl
  | cons i rest ih =>
    intro r
    by_cases hi : i ∈ r
    · simp only [startLoop, if_pos hi]
      exact ih r
    · have hdead : ¬ (i < p.length ∧ p[i]? ≠ n[i]? ∧ i ∈ r) := fun h => hi h.2.2
      simp only [startLoop, if_neg hi, if_neg hdead]
      simp only [List.all_cons, BotAction.isStart, Bool.true_and]
      exact ih _

/-- A slot appearing in the index list but not yet live receives a Start
from the loop. -/
theorem startLoop_start_mem (p n : List BotConfig) (f : Nat → Bool) (i : Nat)
    (l : List Nat) : ∀ (r : List Nat), i ∈ l → i ∉ r →
    BotAction.start i ∈ (startLoop p n f l r).1 := by
  induction l with
  | nil => intro r h _; exact absurd h (List.not_mem_nil i)
  | cons j rest ih =>
    intro r hil hir
    by_cases hj : j ∈ r
    · simp only [startLoop, if_pos hj]
      have hrest : i ∈ rest := by
        rcases List.mem_cons.mp hil with h | h
        · exact absurd (h ▸ hj) hir
        · exact h
      exact ih r hrest hir
    · have hdead : ¬ (j < p.length ∧ p[j]? ≠ n[j]? ∧ j ∈ r) := fun h => hj h.2.2
      simp only [startLoop, if_neg hj, if_neg hdead]
      by_cases hij : i = j
      · exact hij ▸ List.mem_cons_self _ _
      · have hrest : i ∈ rest := by
          rcases List.mem_cons.mp hil with h | h
          · exact absurd h hij
          · exact h
        have hir2 : i ∉ (if f j then r ++ [j] else r) := by
          by_cases hfj : f j
          · simp [hfj, List.mem_append, hir, hij]
          · simp [hfj, hir]
        exact List.mem_cons_of_mem _ (ih _ hrest hir2)

/-- When the declared count does not exceed the live count, the
reconciliation issues no actions at all (runner.py line 114; the empty
load returns even earlier, line 106). -/
theorem startNewBots_no_growth (prevData newData : List BotConfig)
    (running : List Nat) (spawnOk : Nat → Bool)
    (h : ¬ running.length < newData.length) :
    (startNewBots prevData newData running spawnOk).1 = [] := by
  by_cases hn : newData.isEmpty
  · simp [startNewBots, hn]
  · simp [startNewBots, hn, h]

/-- C1.  The claim asserts a Stop for slot 0 exactly once when the new
DeclaredState is empty and slot 0 was live; the code returns early on an
empty load and issues zero Stop actions. -/
theorem shrink_issues_no_stop_cex :
    ((startNewBots [cfgA] [] [0] (fun _ => true)).1).count (BotAction.stop 0)
      = 0 := rfl

/-- C1 (amended).  Reconciliation never issues any Stop action: every
emitted action is a Start, and an empty new DeclaredState returns early,
issuing nothing, leaving the registry untouched and keeping the previous
recorded state. -/
theorem reconcile_never_stops :
    (∀ (prevData newData : List BotConfig) (running : List Nat)
       (spawnOk : Nat → Bool),
       ((startNewBots prevData newData running spawnOk).1).all
         BotAction.isStart = true) ∧
    (∀ (prevData : List BotConfig) (running : List Nat)
       (spawnOk : Nat → Bool),
       startNewBots prevData [] running spawnOk = ([], running, prevData)) := by
  constructor
  · intro p n r f
    by_cases hn : n.isEmpty
    · simp [startNewBots, hn]
    · by_cases hlen : n.length > r.length
      · simp only [startNewBots, hn, Bool.false_eq_true, if_false, if_pos hlen]
        exact startLoop_all_start p n f _ r
      · simp [startNewBots, hn, hlen]
  · intro p r f
    rfl

/-- C2.  Failing input for restart-on-change: slot 0 is live in the
registry and its config content changed from `cfgA` to `cfgA2`.  The code
issues no action at all for it — the loop body is gated on the declared
count exceeding the live count (first conjunct), and even when the gate
passes because another slot was added, the live slot 0 is skipped by
`i not in self.running_bots`, so only the new slot 1 is started (second
conjunct).  The claim requires exactly [Stop 0, Start 0]. -/
theorem changed_live_slot_no_restart :
    (startNewBots [cfgA] [cfgA2] [0] (fun _ => true)).1 = [] ∧
    (startNewBots [cfgA] [cfgA2, cfgB] [0] (fun _ => true)).1 =
      [BotAction.start 1] := by
  exact ⟨rfl, rfl⟩

/-- C3.  Slot 1 is declared in the new state and has no live handle, yet
the registry still holds two live handles (slot 2 survives from an older,
longer state because shrink never stops; see C1), so the declared count
does not exceed the live count and no Start is issued for slot 1. -/
theorem missing_slot_not_started_cex :
    (startNewBots [cfgA, cfgB] [cfgA, cfgB] [0, 2] (fun _ => true)).1
      = [] := rfl

/-- C3 (amended).  A declared slot with no live handle receives a Start on
this cycle only when the number of declared slots strictly exceeds the
number of live handles — in that case every such slot is started;
otherwise the cycle issues no actions at all. -/
theorem start_only_when_declared_exceeds_live :
    (∀ (prevData newData : List BotConfig) (running : List Nat)
       (spawnOk : Nat → Bool) (i : Nat),
       i < newData.length → i ∉ running →
       running.length < newData.length →
       BotAction.start i ∈ (startNewBots prevData newData running spawnOk).1) ∧
    (∀ (prevData newData : List BotConfig) (running : List Nat)
       (spawnOk : Nat → Bool),
       ¬ running.length < newData.length →
       (startNewBots prevData newData running spawnOk).1 = []) := by
  constructor
  · intro p n r f i hi hir hlen
    have hn : n.isEmpty = false := by
      cases n with
      | nil => exact absurd hlen (by simp)
      | cons _ _ => rfl
    simp only [startNewBots, hn, Bool.false_eq_true, if_false, gt_iff_lt,
      if_pos hlen]
    exact startLoop_start_mem p n f i _ r (List.mem_range.mpr hi) hir
  · intro p n r f h
    exact startNewBots_no_growth p n r f h

/-- C3 witness: a single declared slot, empty registry — the slot is
started. -/
theorem start_only_when_declared_exceeds_live_witness :
    BotAction.start 0 ∈ (startNewBots [] [cfgA] [] (fun _ => true)).1 :=
  start_only_when_declared_exceeds_live.1 [] [cfgA] [] (fun _ => true) 0
    (by decide) (by decide) (by decide)

/-- C8.  Reconciling an identical DeclaredState while every declared slot
is live issues zero actions: the registry then has at least as many keys
as the declared list has slots, so the growth gate fails. -/
theorem reconcile_idempotent :
    ∀ (data : List BotConfig) (running : List Nat) (spawnOk : Nat → Bool),
      running.Nodup → (∀ i, i < data.length → i ∈ running) →
      (startNewBots data data running spawnOk).1 = [] := by
  intro data running f hnd hall
  have hsub : List.range data.length ⊆ running := by
    intro i hi
    exact hall i (List.mem_range.mp hi)
  have hlen : data.length ≤ running.length := by
    have h2 := List.Subperm.length_le
      (List.subperm_of_subset (List.nodup_range _) hsub)
    simpa using h2
  exact startNewBots_no_growth data data running f (Nat.not_lt.mpr hlen)

/-- C8 witness: one declared slot, live in the registry — no actions. -/
theorem reconcile_idempotent_witness :
    (startNewBots [cfgA] [cfgA] [0] (fun _ => true)).1 = [] :=
  reconcile_idempotent [cfgA] [0] (fun _ => true) (by decide) (by decide)

/-- The per-entry step block of a registry member is a contiguous,
order-preserving part of the full shutdown step sequence. -/
theorem shutdownSteps_block_sublist (ip : Nat × ProcSim) :
    ∀ (running : List (Nat × ProcSim)), ip ∈ running →
    (shutdownBlock ip).Sublist (shutdownSteps running) := by
  intro running h
  induction running with
  | nil => exact absurd h (List.not_mem_nil ip)
  | cons jp rest ih =>
    rcases List.mem_cons.mp h with h1 | h1
    · subst h1
      simp only [shutdownSteps]
      exact List.sublist_append_left _ _
    · simp only [shutdownSteps]
      exact (ih h1).trans (List.sublist_append_right _ _)

/-- C4.  Shutdown issues, for every live handle, `terminate`, then
`wait` with the grace timeout of 5, then `kill` exactly when the wait
timed out, in that order; afterwards the registry is empty regardless of
how many handles escalated to kill. -/
theorem shutdown_terminates_waits_kills_and_clears :
    ∀ (running : List (Nat × ProcSim)),
      (shutdownAllBots running).2 = [] ∧
      (∀ ip ∈ running,
        (shutdownBlock ip).Sublist (shutdownAllBots running).1) ∧
      (∀ ip : Nat × ProcSim,
        ShutAction.kill ip.1 ∈ shutdownBlock ip ↔
          ip.2.exitsInGrace = false) := by
  intro running
  refine ⟨rfl, fun ip h => shutdownSteps_block_sublist ip running h,
    fun ip => ?_⟩
  cases hp : ip.2.exitsInGrace <;> simp [shutdownBlock, hp]

/-- C4 witness: one live handle whose wait times out — terminate, wait 5,
kill appear in order and the registry is cleared. -/
theorem shutdown_terminates_waits_kills_and_clears_witness :
    (shutdownAllBots [(0, ProcSim.mk false)]).2 = [] ∧
    (shutdownBlock (0, ProcSim.mk false)).Sublist
      (shutdownAllBots [(0, ProcSim.mk false)]).1 :=
  ⟨(shutdown_terminates_waits_kills_and_clears [(0, ProcSim.mk false)]).1,
   (shutdown_terminates_waits_kills_and_clears [(0, ProcSim.mk false)]).2.1
     (0, ProcSim.mk false) (List.mem_singleton.mpr rfl)⟩

/-- C5.  The claim asserts the mutex is never held during blocking I/O,
i.e. that this check returns `false`; on a registry with one live worker
the shutdown trace performs its blocking `wait` strictly between acquiring
and releasing `self.lock`. -/
theorem lock_held_during_blocking_cex :
    blockedWhileLocked (shutdownTrace [(0, ProcSim.mk true)]) false
      = true := rfl

/-- When some slot in the index list is not yet live, the start loop
performs a blocking store read (and spawn), whatever follows it. -/
theorem blocked_startTraceLoop (p n : List BotConfig) (f : Nat → Bool)
    (i : Nat) (l : List Nat) : ∀ (r : List Nat) (s : List Ev),
    i ∈ l → i ∉ r →
    blockedWhileLocked (startTraceLoop p n f l r ++ s) true = true := by
  induction l with
  | nil => intro r s h _; exact absurd h (List.not_mem_nil i)
  | cons j rest ih =>
    intro r s hil hir
    by_cases hj : j ∈ r
    · simp only [startTraceLoop, if_pos hj]
      have hrest : i ∈ rest := by
        rcases List.mem_cons.mp hil with h | h
        · exact absurd (h ▸ hj) hir
        · exact h
      exact ih r s hrest hir
    · have hdead : ¬ (j < p.length ∧ p[j]? ≠ n[j]? ∧ j ∈ r) := fun h => hj h.2.2
      simp only [startTraceLoop, if_neg hj, if_neg hdead, List.cons_append]
      simp [blockedWhileLocked, Ev.isBlocking]

/-- C5 (amended).  The registry mutex IS held across blocking I/O: a
non-empty shutdown performs its graceful `wait` inside the lock, and any
reconciliation cycle that starts at least one bot performs that bot's
store re-read and process spawn inside the lock. -/
theorem lock_held_during_blocking_ops :
    (∀ (running : List (Nat × ProcSim)), running ≠ [] →
       blockedWhileLocked (shutdownTrace running) false = true) ∧
    (∀ (prevData newData : List BotConfig) (running : List Nat)
       (spawnOk : Nat → Bool) (i : Nat),
       i < newData.length → i ∉ running →
       running.length < newData.length →
       blockedWhileLocked
         (startNewBotsTrace prevData newData running spawnOk) false
         = true) := by
  constructor
  · intro running hne
    match running with
    | (j, p) :: rest =>
      simp [shutdownTrace, shutdownTraceSteps, blockedWhileLocked,
        Ev.isBlocking]
  · intro p n r f i hi hir hlen
    have hn : n.isEmpty = false := by
      cases n with
      | nil => exact absurd hlen (by simp)
      | cons _ _ => rfl
    simp only [startNewBotsTrace, hn, Bool.false_eq_true, if_false,
      gt_iff_lt, if_pos hlen]
    simp only [blockedWhileLocked, Ev.isBlocking]
    simp only [if_neg (by decide : ¬ (Ev.readStore = Ev.lockAcquire)),
      if_neg (by decide : ¬ (Ev.readStore = Ev.lockRelease)),
      if_pos (rfl : Ev.lockAcquire = Ev.lockAcquire),
      Bool.and_false, Bool.false_or]
    exact blocked_startTraceLoop p n f i _ r [Ev.lockRelease]
      (List.mem_range.mpr hi) hir

/-- C5 witness: a one-worker shutdown blocks inside the lock. -/
theorem lock_held_during_blocking_ops_witness :
    blockedWhileLocked (shutdownTrace [(1, ProcSim.mk false)]) false
      = true :=
  lock_held_during_blocking_ops.1 [(1, ProcSim.mk false)] (by decide)

/-- C6.  On the invalid argument `badcmd`, `main` prints an error plus a
pointer to `help` and falls off the end of the function: the process exit
code is 0, not non-zero as the claim requires. -/
theorem invalid_arg_exit_code_zero_cex :
    (mainDispatch [] ["badcmd"]).exitCode = some 0 := rfl

/-- C6 (amended).  An unrecognised single argument prints an error naming
the argument plus a pointer to the `help` command, and extra arguments
print a too-many-arguments error plus the same pointer; in both cases the
process exits with code 0. -/
theorem invalid_args_print_error_exit_zero :
    (∀ (storedData : List BotConfig) (arg : String),
       arg ≠ "list" → arg ≠ "help" →
       mainDispatch storedData [arg] =
         CliEffect.output
           ["Error: '" ++ arg ++ ("' is not a valid command"), usagePointer]
           0) ∧
    (∀ (storedData : List BotConfig) (a b : String) (rest : List String),
       mainDispatch storedData (a :: b :: rest) =
         CliEffect.output ["Error: Too many arguments", usagePointer] 0) := by
  constructor
  · intro d arg h1 h2
    simp [mainDispatch, h1, h2]
  · intro d a b rest
    rfl

/-- C6 witness: a concrete invalid argument. -/
theorem invalid_args_print_error_exit_zero_witness :
    mainDispatch [] ["runfast"] =
      CliEffect.output
        ["Error: '" ++ "runfast" ++ ("' is not a valid command"),
         usagePointer] 0 :=
  invalid_args_print_error_exit_zero.1 [] "runfast" (by decide) (by decide)

/-- C7.  Counterexample to the Running report: after the spec's own
scenario (one declared slot "B" whose worker process is live), the `list`
command — which builds a fresh monitor with an empty registry — prints
slot 0 with status Stopped, not Running, whatever the worker process is
doing. -/
theorem cli_list_reports_stopped_cex :
    (cliList [cfgB])[1]? = some (botLine 0 ("mistral") 10 ("Stopped")) ∧
    (cliList [cfgB])[1]? ≠ some (botLine 0 ("mistral") 10 ("Running")) := by
  exact ⟨rfl, by decide⟩

/-- C7 (amended).  The `list` CLI command prints, for every declared slot,
its model (default `Unknown`), its response chance (default 5) and a
status — but the status comes from the fresh monitor's own empty registry,
so it is `Stopped` for every slot regardless of any running worker
processes. -/
theorem cli_list_status_always_stopped :
    ∀ (storedData : List BotConfig) (i : Nat) (h : i < storedData.length),
      (cliList storedData)[i + 1]? =
        some (botLine i ((storedData.get ⟨i, h⟩).model.getD ("Unknown"))
          ((storedData.get ⟨i, h⟩).msg_chance.getD 5) ("Stopped")) := by
  intro data i h
  have hne : data.isEmpty = false := by
    cases data with
    | nil => exact absurd h (by simp)
    | cons _ _ => rfl
  simp only [cliList, listBots, hne, Bool.false_eq_true, if_false]
  rw [List.getElem?_cons_succ, List.getElem?_map, List.getElem?_enum,
    List.getElem?_eq_getElem h]
  simp [List.get_eq_getElem]

/-- C7 witness: two declared slots; the second is reported Stopped with
its declared model and chance. -/
theorem cli_list_status_always_stopped_witness :
    (cliList [cfgA, cfgB])[2]? =
      some (botLine 1 ("mistral") 10 ("Stopped")) :=
  cli_list_status_always_stopped [cfgA, cfgB] 1 (by decide)

/-- C9.  Whenever the store does not yield a parsed list — file missing,
unreadable, invalid JSON, or JSON that is not a list — `_load_data`
returns the empty declared list and prints an error line; every such path
returns normally instead of raising. -/
theorem load_failure_yields_empty_and_logs :
    ∀ (dataFile : String) (s : StoreContent), s.parsesAsList = false →
      (loadData dataFile s).1 = [] ∧ (loadData dataFile s).2 ≠ [] := by
  intro f s h
  cases s with
  | missing => exact ⟨rfl, by simp [loadData]⟩
  | unreadable m => exact ⟨rfl, by simp [loadData]⟩
  | invalidJson m => exact ⟨rfl, by simp [loadData]⟩
  | jsonNonList => exact ⟨rfl, by simp [loadData]⟩
  | jsonList l => exact absurd h (by simp [StoreContent.parsesAsList])

/-- C9 witness: a missing backing store loads as the empty fleet with an
error line. -/
theorem load_failure_yields_empty_and_logs_witness :
    (loadData ("data.json") StoreContent.missing).1 = [] ∧
    (loadData ("data.json") StoreContent.missing).2 ≠ [] :=
  load_failure_yields_empty_and_logs ("data.json") StoreContent.missing rfl

/-- C10.  The content field of a post-processed response is never the
empty string: when truncating at `---` and filtering the `Gen:` and
`see_pfp:` lines leaves an empty remainder, it is replaced by `OK`. -/
theorem ai_response_content_nonempty :
    ∀ (modelResponse : String),
      (get_ai_response modelResponse).content ≠ "" ∧
      (String.intercalate ("\n") (postProcessParts modelResponse).1 = "" →
        (get_ai_response modelResponse).content = "OK") := by
  intro s
  by_cases h : String.intercalate ("\n") (postProcessParts s).1 = ""
  · constructor
    · show (if String.intercalate ("\n") (postProcessParts s).1 = ""
          then "OK" else String.intercalate ("\n") (postProcessParts s).1)
          ≠ ""
      rw [if_pos h]
      decide
    · intro _
      show (if String.intercalate ("\n") (postProcessParts s).1 = ""
          then "OK" else String.intercalate ("\n") (postProcessParts s).1)
          = "OK"
      rw [if_pos h]
  · constructor
    · show (if String.intercalate ("\n") (postProcessParts s).1 = ""
          then "OK" else String.intercalate ("\n") (postProcessParts s).1)
          ≠ ""
      rw [if_neg h]
      exact h
    · intro hh
      exact absurd hh h

/-- C10 witness: a response that is a single `Gen:` line filters down to
an empty remainder, so the content becomes `OK`. -/
theorem ai_response_content_nonempty_witness :
    (get_ai_response ("Gen: cat")).content = "OK" :=
  (ai_response_content_nonempty ("Gen: cat")).2 (by decide)
